import Mathlib

/-!
Verification of the van Emde Boas tree map (`src/lib.rs`, crate `veb-tree`).

The embedding is a shallow one:

* Machine integers (`u32` keys, `u8` bit-width quantities) are modelled as
  `Nat` with explicit wrap-around (`% 2^32`, `% 2^8`) at exactly the spots
  where the Rust release build wraps.  The `#[cfg(any(test, ...))]`
  assertions are compiled out of the shipped library and are not modelled.
* `VebTreeMap<K, V>` is monomorphised at `K = u32` with `Nat` values; the
  summary trees (`VebTreeMap<K, ()>`) reuse the same node type with the unit
  value modelled as `0` — the code never reads a summary value.
* `HashMap<K, VebTreeMap<K, V>>` is modelled as an association list with
  `lookupA` (= `HashMap::get`) and `updateA` (= the write-back performed via
  `entry` / `get_mut`); the code never iterates the map, so order is
  irrelevant.
* The node type `VTree n` carries a structural depth bound `n`.  The bound
  has no computational content: every concrete tree the Rust code can build
  is finite and embeds at every sufficiently large bound, and `liftT`
  re-embeds a tree one level higher.  The bound makes all operations
  structurally recursive (on `n`), hence executable and reducible by
  `rfl` / `decide`.  The only behaviour cut off by the bound is child
  creation at bound 0 (`freshSingleton 0 = none`), which no statement below
  exercises: theorems quantify over `liftT`-embedded trees (which have
  slack below every node) or use a concrete bound far larger than the
  recursion depth of the trace involved.
* `remove` contains two `expect` calls and `successor` / `predecessor` a
  `panic!` arm; these diagnostic aborts are modelled as `none` in an outer
  `Option` layer, and a run that aborts propagates `none`.
-/

/-- Key arithmetic of `impl VebKey for $typ` (`src/lib.rs` lines 406-456):
`cluster_size` is `universe_size >> 1` (a number of bits, stored in a `u8`). -/
def vebClusterSize (universeSize : Nat) : Nat := universeSize / 2

/-- `VebKey::high` (lines 431-435): `*self >> cluster_size`. -/
def vebHigh (k cb : Nat) : Nat := k >>> cb

/-- `VebKey::low` (lines 437-441): `*self & (cluster_size - 1) as Self`.
The subtraction is performed on the `u8` cluster size and wraps in release
mode, hence `(cb + 255) % 256`; for `1 ≤ cb ≤ 256` this is exactly `cb - 1`.
Note that the source masks with the cluster size minus one, not with
`(1 << cluster_size) - 1`. -/
def vebLow (k cb : Nat) : Nat := k &&& ((cb + 255) % 256)

/-- `VebKey::index` (lines 443-446): `(*self << cluster_size) + low`, at key
width `w`; the shift and the addition wrap at the key width in release mode. -/
def vebIndex (w h l cb : Nat) : Nat := ((h <<< cb) + l) % 2 ^ w

/-- `VebKey::high` as used by a `VebTreeMap<u32, _>`. -/
def high32 (k cb : Nat) : Nat := vebHigh k cb

/-- `VebKey::low` as used by a `VebTreeMap<u32, _>`. -/
def low32 (k cb : Nat) : Nat := vebLow k cb

/-- `VebKey::index` as used by a `VebTreeMap<u32, _>` (`w = 32`). -/
def index32 (h l cb : Nat) : Nat := vebIndex 32 h l cb

/-- A `VebTreeMap<u32, u32>` node (`src/lib.rs` lines 35-46), with the
structural depth bound `n` explained in the module comment.  The five
components are, in order: the lazy `min` pair, the lazy `max` pair, the
optional summary tree, the sparse cluster table, and the `cluster_size`
field (a bit count). -/
@[reducible] def VTree : Nat → Type
  | 0 => PEmpty
  | n + 1 =>
    Option (Nat × Nat) × Option (Nat × Nat) × Option (VTree n) ×
      List (Nat × VTree n) × Nat

/-- `HashMap::get` on the sparse cluster table. -/
def lookupA {β : Type} : List (Nat × β) → Nat → Option β
  | [], _ => none
  | (h, c) :: rest, k => if k = h then some c else lookupA rest k

/-- Write-back of a mutated (or `entry`-created) cluster: replace the first
binding of the key, or append a fresh binding. -/
def updateA {β : Type} : List (Nat × β) → Nat → β → List (Nat × β)
  | [], k, c => [(k, c)]
  | (h, c0) :: rest, k, c =>
    if k = h then (k, c) :: rest else (h, c0) :: updateA rest k c

/-- The `min` field (also the public `min()`, lines 89-92). -/
def mnOf : (n : Nat) → VTree n → Option (Nat × Nat)
  | _ + 1, (mn, _, _, _, _) => mn
  | 0, t => t.elim

/-- The `max` field (also the public `max()`, lines 84-87). -/
def mxOf : (n : Nat) → VTree n → Option (Nat × Nat)
  | _ + 1, (_, mx, _, _, _) => mx
  | 0, t => t.elim

/-- Number of entries in the node's cluster table. -/
def clustersCount : (n : Nat) → VTree n → Nat
  | _ + 1, (_, _, _, cls, _) => cls.length
  | 0, t => t.elim

/-- Whether the node has allocated a summary. -/
def hasSummary : (n : Nat) → VTree n → Bool
  | _ + 1, (_, _, sm, _, _) => sm.isSome
  | 0, t => t.elim

/-- `VebTreeMap::is_empty` (lines 69-71): the `min` is absent. -/
def isEmptyT (n : Nat) (t : VTree n) : Bool := (mnOf n t).isNone

/-- `VebTreeMap::with_max_size` (lines 56-66): an empty node whose
`cluster_size` is `K::cluster_size(&max_size) = max_size >> 1`. -/
def emptyT (n : Nat) (maxSize : Nat) : VTree (n + 1) :=
  (none, none, none, [], vebClusterSize maxSize)

/-- `VebTreeMap::<u32, _>::new()` (lines 52-54): `with_max_size(32)`. -/
def new32 (n : Nat) : VTree (n + 1) := emptyT n 32

/-- A cluster freshly created by `entry(..).or_insert_with` (or a summary by
`get_or_insert_with`) and then lazily inserted into (lines 132-137 via the
recursive call): a node of max size `cs` holding only `min = max = (l, v)`.
At bound 0 no child can be represented; no statement below reaches that
case (see the module comment). -/
def freshSingleton : (n : Nat) → (cs l v : Nat) → Option (VTree n)
  | 0, _, _, _ => none
  | _ + 1, cs, l, v =>
    some (some (l, v), some (l, v), none, [], vebClusterSize cs)

/-- `VebTreeMap::get` (lines 95-125): check the min, then the max, then
recurse into the key's cluster. -/
def getT : (n : Nat) → VTree n → Nat → Option Nat
  | n + 1, (mn, mx, _sm, cls, cs), k =>
    let clusterPart : Option Nat :=
      match lookupA cls (high32 k cs) with
      | none => none
      | some c => getT n c (low32 k cs)
    let maxPart : Option Nat :=
      match mx with
      | some (xk, xv) =>
        if k > xk then none else if k = xk then some xv else clusterPart
      | none => clusterPart
    match mn with
    | some (mk0, mv0) =>
      if k < mk0 then none else if k = mk0 then some mv0 else maxPart
    | none => maxPart
  | 0, t, _ => t.elim

/-- `VebTreeMap::insert` (lines 128-197), returning the updated node and the
replaced value.  The source mutates `key` / `value` while swapping them
through `min` and `max`; here the running pair is threaded explicitly
(`k1, v1` after the min section, `k2, v2` after the max section). -/
def insertT : (n : Nat) → VTree n → Nat → Nat → VTree n × Option Nat
  | n + 1, (mn, mx, sm, cls, cs), k, v =>
    match mn with
    | none =>
      -- lines 132-137: when empty, lazily store the pair in min and max.
      ((some (k, v), some (k, v), sm, cls, cs), none)
    | some (mk0, mv0) =>
      -- lines 142-151: swap with the min, or replace the min value in place.
      match
        (if k < mk0 then (some (k, v), mk0, mv0, none)
         else if k = mk0 then (some (mk0, v), k, v, some mv0)
         else (some (mk0, mv0), k, v, none) :
          Option (Nat × Nat) × Nat × Nat × Option Nat) with
      | (mn1, k1, v1, rv1) =>
        -- lines 153-161: swap with the max, or replace the max value.
        match
          (match mx with
           | some (xk, xv) =>
             if k1 > xk then (some (k1, v1), xk, xv, rv1)
             else if k1 = xk then (some (xk, v1), k1, v1, some xv)
             else (some (xk, xv), k1, v1, rv1)
           | none => (none, k1, v1, rv1) :
            Option (Nat × Nat) × Nat × Nat × Option Nat) with
        | (mx1, k2, v2, rv2) =>
          -- lines 163-166: a value was replaced, so we are done.
          if rv2.isSome then ((mn1, mx1, sm, cls, cs), rv2)
          -- lines 168-175: min and max were duplicates; the key was swapped
          -- into the max and nothing has to be pushed down.
          else if (match mn1 with | some (m, _) => k2 == m | none => false) then
            ((mn1, mx1, sm, cls, cs), none)
          else
            -- lines 177-196: push the running pair into its cluster,
            -- inserting into the summary when the cluster was empty.
            let h := high32 k2 cs
            let l := low32 k2 cs
            match lookupA cls h with
            | some c =>
              let sm1 : Option (VTree n) :=
                if isEmptyT n c then
                  match sm with
                  | some s => some (insertT n s h 0).1
                  | none => freshSingleton n cs h 0
                else sm
              let res := insertT n c l v2
              ((mn1, mx1, sm1, updateA cls h res.1, cs), res.2)
            | none =>
              match freshSingleton n cs l v2 with
              | some c1 =>
                let sm1 : Option (VTree n) :=
                  match sm with
                  | some s => some (insertT n s h 0).1
                  | none => freshSingleton n cs h 0
                ((mn1, mx1, sm1, updateA cls h c1, cs), none)
              | none => ((mn1, mx1, sm, cls, cs), none)
  | 0, t, _, _ => t.elim

/-- `VebTreeMap::remove` (lines 200-266).  `none` models a run that dies in
one of the two `expect` calls (lines 213-227 or 249-262); `some` returns the
updated node. -/
def removeT : (n : Nat) → VTree n → Nat → Option (VTree n)
  | n + 1, (mn, mx, sm, cls, cs), k =>
    -- lines 232-265, parameterised by the (possibly replaced) min and key.
    let cont : Option (Nat × Nat) → Nat → Option (VTree (n + 1)) :=
      fun mn1 k1 =>
        -- lines 232-240: remove the key's low half from its cluster and
        -- prune the summary when the cluster becomes empty.
        let h := high32 k1 cs
        let step2 : Option (List (Nat × VTree n) × Option (VTree n)) :=
          match lookupA cls h with
          | none => some (cls, sm)
          | some c =>
            match removeT n c (low32 k1 cs) with
            | none => none
            | some c1 =>
              if isEmptyT n c1 then
                match sm with
                | some s =>
                  match removeT n s h with
                  | none => none
                  | some s1 => some (updateA cls h c1, some s1)
                | none => some (updateA cls h c1, none)
              else some (updateA cls h c1, sm)
        match step2 with
        | none => none
        | some (cls1, sm1) =>
          -- lines 242-265: fix up the max when it was the removed key.
          match mx with
          | some (xk, _xv) =>
            if k1 = xk then
              match sm1.bind (mxOf n) with
              | none => some (mn1, mn1, sm1, cls1, cs)
              | some (sxk, _) =>
                match lookupA cls1 sxk with
                | none => none   -- expect: cluster for summary max missing
                | some c2 =>
                  match mxOf n c2 with
                  | none => none -- expect: that cluster has no max element
                  | some (cxk, cxv) =>
                    some (mn1, some (index32 sxk cxk cs, cxv), sm1, cls1, cs)
            else some (mn1, mx, sm1, cls1, cs)
          | none => some (mn1, mx, sm1, cls1, cs)
    -- lines 204-230: when removing the min, pull the new min out of the
    -- cluster named by the summary's min, or wipe the extrema.
    match mn with
    | some (mk0, _mv0) =>
      if k = mk0 then
        match sm.bind (mnOf n) with
        | none => some (none, none, sm, cls, cs)
        | some (smk, _) =>
          match lookupA cls smk with
          | none => none   -- expect: cluster for summary min should exist
          | some c =>
            match mnOf n c with
            | none => none -- expect: it should have a min element
            | some (cmk, cmv) =>
              let nk := index32 smk cmk cs
              cont (some (nk, cmv)) nk
      else cont mn k
    | none => cont mn k
  | 0, t, _ => t.elim

/-- `VebTreeMap::successor` (lines 269-325).  The outer `Option` models the
`panic!` arm at lines 289-296 (and aborts propagated from recursion). -/
def successorT : (n : Nat) → VTree n → Nat → Option (Option (Nat × Nat))
  | n + 1, (mn, mx, sm, cls, cs), k =>
    -- lines 317-324: if the key is less than the max, return the max.
    let maxStep : Option (Option (Nat × Nat)) :=
      match mx with
      | some (xk, xv) => if k < xk then some (some (xk, xv)) else some none
      | none => some none
    -- lines 301-315: find the next non-empty cluster via the summary.
    let sumStep : Option (Option (Nat × Nat)) :=
      match sm with
      | some s =>
        match successorT n s (high32 k cs) with
        | none => none
        | some none => maxStep
        | some (some (nh, _)) =>
          match lookupA cls nh with
          | some nc =>
            match mnOf n nc with
            | some (nl, v) => some (some (index32 nh nl cs, v))
            | none => maxStep
          | none => maxStep
      | none => maxStep
    -- lines 280-299: if the key is below its cluster's max, recurse there.
    let clusterStep : Option (Option (Nat × Nat)) :=
      match lookupA cls (high32 k cs) with
      | some c =>
        match mxOf n c with
        | some (cxk, _) =>
          if low32 k cs < cxk then
            match successorT n c (low32 k cs) with
            | none => none
            | some none => none  -- the panic! arm: successor wasn't found
            | some (some (nl, v)) =>
              some (some (index32 (high32 k cs) nl cs, v))
          else sumStep
        | none => sumStep
      | none => sumStep
    -- lines 273-278: if the key is less than the min, return the min.
    match mn with
    | some (mk0, mv0) =>
      if k < mk0 then some (some (mk0, mv0)) else clusterStep
    | none => clusterStep
  | 0, t, _ => t.elim

/-- `VebTreeMap::predecessor` (lines 328-384), the mirror of `successor`;
the outer `Option` models the `panic!` arm at lines 348-355. -/
def predecessorT : (n : Nat) → VTree n → Nat → Option (Option (Nat × Nat))
  | n + 1, (mn, mx, sm, cls, cs), k =>
    let minStep : Option (Option (Nat × Nat)) :=
      match mn with
      | some (mk0, mv0) => if k > mk0 then some (some (mk0, mv0)) else some none
      | none => some none
    let sumStep : Option (Option (Nat × Nat)) :=
      match sm with
      | some s =>
        match predecessorT n s (high32 k cs) with
        | none => none
        | some none => minStep
        | some (some (ph, _)) =>
          match lookupA cls ph with
          | some pc =>
            match mxOf n pc with
            | some (pl, v) => some (some (index32 ph pl cs, v))
            | none => minStep
          | none => minStep
      | none => minStep
    let clusterStep : Option (Option (Nat × Nat)) :=
      match lookupA cls (high32 k cs) with
      | some c =>
        match mnOf n c with
        | some (cmk, _) =>
          if low32 k cs > cmk then
            match predecessorT n c (low32 k cs) with
            | none => none
            | some none => none  -- the panic! arm: predecessor wasn't found
            | some (some (pl, v)) =>
              some (some (index32 (high32 k cs) pl cs, v))
          else sumStep
        | none => sumStep
      | none => sumStep
    match mx with
    | some (xk, xv) =>
      if k > xk then some (some (xk, xv)) else clusterStep
    | none => clusterStep
  | 0, t, _ => t.elim

/-- Re-embed a tree with one more level of structural slack.  This does not
change the tree being represented, only its depth bound. -/
def liftT : (n : Nat) → VTree n → VTree (n + 1)
  | n + 1, (mn, mx, sm, cls, cs) =>
    (mn, mx, sm.map (liftT n), cls.map (fun p => (p.1, liftT n p.2)), cs)
  | 0, t => t.elim

/-- Fold a list of insertions over a tree (used to build concrete states). -/
def insMany (n : Nat) : VTree n → List (Nat × Nat) → VTree n
  | t, [] => t
  | t, (k, v) :: rest => insMany n (insertT n t k v).1 rest

/-! Concrete `u32` map states, each built from `new()` by the listed
insertions (all keys in `[0, 2^32)`); the depth bound 9 far exceeds the
recursion depth of every trace below. -/

/-- State after insert(0,100); insert(17,170); insert(1000000,300).
Keys 0 and 1000000 sit in the root's lazy min/max; 17 is pushed into
cluster `high(17) = 0` at slot `low(17) = 17 & (16 - 1) = 1`. -/
def s3 : VTree 9 := insMany 9 (new32 8) [(0, 100), (17, 170), (1000000, 300)]

/-- State after insert(0,10); insert(1,11). -/
def s4 : VTree 9 := insMany 9 (new32 8) [(0, 10), (1, 11)]

/-- State after insert(0,0); insert(1,1) (scenario S6, forward order). -/
def s5 : VTree 9 := insMany 9 (new32 8) [(0, 0), (1, 1)]

/-- State after insert(1,1); insert(0,0) (scenario S6, reverse order). -/
def s5rev : VTree 9 := insMany 9 (new32 8) [(1, 1), (0, 0)]

/-- State after insert(0,5); insert(2^31,6); insert(17,7); insert(18,8).
Keys 17 and 18 live in cluster 0 at slots 1 and 2 (their lows masked by
`16 - 1 = 15`). -/
def s7 : VTree 9 := insMany 9 (new32 8) [(0, 5), (2147483648, 6), (17, 7), (18, 8)]

/-- State after insert(0,0); insert(2^31,6); insert(17,170). -/
def s8 : VTree 9 := insMany 9 (new32 8) [(0, 0), (2147483648, 6), (17, 170)]

/-- State after insert(0,0); insert(2^31,1); insert(17,2); insert(524289,3);
insert(16711681,4).  The three middle keys open clusters 0, 8 and 255, so
the summary tree holds the indices {0, 8, 255}, with 8 pushed into the
summary's own cluster table at a slot masked by `8 - 1 = 7`. -/
def s10 : VTree 9 :=
  insMany 9 (new32 8) [(0, 0), (2147483648, 1), (17, 2), (524289, 3), (16711681, 4)]

/-- C1: the spec guarantees `index(high(key, cb), low(key, cb), cb) = key`
for every `key < 2^w`.  On the code this fails: for `u32` (`w = 32`,
`cb = 16`), key 16 has `high = 0` and `low = 16 & (16 - 1) = 0`, so the
recomposition yields 0, not 16.  The mask should have been
`(1 << cb) - 1 = 65535`. -/
theorem index_high_low_roundtrip_fails :
    vebIndex 32 (vebHigh 16 16) (vebLow 16 16) 16 = 0 ∧
      ¬ ∀ k : Nat, k < 2 ^ 32 → vebIndex 32 (vebHigh k 16) (vebLow k 16) 16 = k := by
  refine ⟨rfl, fun h => ?_⟩
  have h16 := h 16 (by norm_num)
  rw [show vebIndex 32 (vebHigh 16 16) (vebLow 16 16) 16 = 0 from rfl] at h16
  exact absurd h16 (by norm_num)

/-- C3: in `s3` the keys 0, 17, 1000000 were inserted and none removed, and
`get` still answers 170 for key 17; yet `successor(1)` returns
`(1000000, 300)`, skipping the stored key 17 (1 < 17 < 1000000), and
`predecessor(1000000)` returns `(1, 170)` — key 1 was never inserted.  Both
contradict "smallest stored key strictly greater / largest strictly less".
The cause is the `low` mask defect: 17 is filed under slot 1, so the
cluster's max is 1 and the in-cluster search is skipped for keys above 1. -/
theorem successor_skips_stored_key :
    getT 9 s3 17 = some 170 ∧
      successorT 9 s3 1 = some (some (1000000, 300)) ∧
      predecessorT 9 s3 1000000 = some (some (1, 170)) :=
  ⟨rfl, rfl, rfl⟩

/-- C4: in `s4` (keys 0 and 1 stored), `remove(0)` must leave key 1 intact,
but the code's remove-min path finds the summary empty and wipes both
extrema, erasing key 1 as well: `get(1)` drops from 11 to absent. -/
theorem remove_breaks_other_key :
    getT 9 s4 1 = some 11 ∧
      (removeT 9 s4 0).map (fun t => getT 9 t 1) = some none :=
  ⟨rfl, rfl⟩

/-- C5: scenario S6.  Forward order: after insert(0,0), insert(1,1),
remove(0), the claim requires `get(1) = 1` and `min() = (1,1)`, but the code
returns absent for both (`remove` wiped min and max together).  The reverse
order behaves as claimed. -/
theorem s6_scenario_fails :
    (removeT 9 s5 0).map (fun t => (getT 9 t 0, getT 9 t 1, mnOf 9 t)) =
        some (none, none, none) ∧
      (removeT 9 s5rev 1).map (fun t => (getT 9 t 1, mnOf 9 t)) =
        some (none, some (0, 0)) :=
  ⟨rfl, rfl⟩

/-- C7: in `s7` the live keys are {0, 2^31, 17, 18}.  After `remove(2^31)`
the live keys are {0, 17, 18}, so `max()` must return `(18, 8)`.  Instead
the max fix-up recomposes `index(0, 2) = 2` from the masked slot of key 18,
so `max()` reports key 2 — a key that was never inserted — and key 18
itself becomes unreachable (`get(18)` turns absent, because 18 now exceeds
the stored max key 2). -/
theorem max_after_remove_wrong :
    getT 9 s7 18 = some 8 ∧
      (removeT 9 s7 2147483648).map (mxOf 9) = some (some (2, 8)) ∧
      (removeT 9 s7 2147483648).map (fun t => getT 9 t 18) = some none :=
  ⟨rfl, rfl, rfl⟩

/-- C8: in `s8` the inserted keys are {0, 2^31, 17}; key 33 was never
inserted.  `remove(33)` must be a no-op, but `high(33) = 0` and
`low(33) = 33 & 15 = 1` collide with the slot holding key 17, so the call
deletes that entry: `get(17)` drops from 170 to absent. -/
theorem remove_absent_key_not_noop :
    getT 9 s8 17 = some 170 ∧
      (removeT 9 s8 33).map (fun t => getT 9 t 17) = some none :=
  ⟨rfl, rfl⟩

/-- C10: in `s10`, `remove(0)` succeeds but leaves the root's min holding
the recomposed key 1 and leaves the summary's own min recomposed to cluster
index 0 while cluster 0 is empty (the bit for index 8 is lost).  The next
call `remove(1)` then takes the remove-min path, asks the summary for its
min, gets cluster index 0, finds the retained-but-empty cluster 0 and dies
in `.expect("cluster for summary min should have a min element")` — modelled
as `none`.  So the diagnostic branches are reachable from `new()` by
in-universe inserts and removes, contrary to the claim. -/
theorem remove_reaches_expect :
    (removeT 9 s10 0).isSome = true ∧
      (removeT 9 s10 0).bind (fun t => removeT 9 t 1) = none :=
  ⟨rfl, rfl⟩

/-! Helper lemmas shared by the theorems below. -/

/-- Looking up a key right after writing it back finds the written value. -/
theorem lookupA_updateA_self {β : Type} (L : List (Nat × β)) (h : Nat) (c : β) :
    lookupA (updateA L h c) h = some c := by
  induction L with
  | nil => simp [updateA, lookupA]
  | cons p rest ih =>
    obtain ⟨ph, pc⟩ := p
    by_cases he : h = ph
    · simp [updateA, lookupA, he]
    · simp [updateA, lookupA, he, ih]

/-- Lookup commutes with re-embedding every cluster at a higher bound. -/
theorem lookupA_map_lift (n : Nat) (cls : List (Nat × VTree n)) (h : Nat) :
    lookupA (cls.map (fun p => (p.1, liftT n p.2))) h =
      (lookupA cls h).map (liftT n) := by
  induction cls with
  | nil => simp [lookupA]
  | cons p rest ih =>
    obtain ⟨ph, pc⟩ := p
    by_cases he : h = ph
    · simp [lookupA, he]
    · simp [lookupA, he, ih]

/-- One-step unfolding of `getT` on an explicit node, for use with `rw`. -/
theorem getT_unfold (n : Nat) (mn mx : Option (Nat × Nat)) (sm : Option (VTree n))
    (cls : List (Nat × VTree n)) (cs k : Nat) :
    getT (n + 1) (mn, mx, sm, cls, cs) k =
      (let clusterPart : Option Nat :=
        match lookupA cls (high32 k cs) with
        | none => none
        | some c => getT n c (low32 k cs)
      let maxPart : Option Nat :=
        match mx with
        | some (xk, xv) =>
          if k > xk then none else if k = xk then some xv else clusterPart
        | none => clusterPart
      match mn with
      | some (mk0, mv0) =>
        if k < mk0 then none else if k = mk0 then some mv0 else maxPart
      | none => maxPart) := rfl

/-- C2: immediately after `insert(k, v)`, `get(k)` returns `v`.  This holds
for every tree state whatsoever (hence for every state reachable from
`new()` by in-universe inserts and removes) and every key and value, because
`get` and `insert` traverse with the same `high`/`low` decomposition and a
pair displaced from `min`/`max` leaves the inserted pair behind where `get`
looks first.  The state is quantified as `liftT n t` so that the node has
depth slack for the one child `insert` may create (every concrete tree is
such an embedding; see the module comment). -/
theorem insert_get_roundtrip : ∀ (n : Nat) (t : VTree n) (k v : Nat),
    getT (n + 1) (insertT (n + 1) (liftT n t) k v).1 k = some v
  | 0, t, _, _ => t.elim
  | m + 1, (mn, mx, sm, cls, cs), k, v => by
    simp only [liftT]
    rw [insertT.eq_def]
    rcases mn with _ | ⟨mk0, mv0⟩
    · rw [getT_unfold]
      simp
    rcases Nat.lt_trichotomy k mk0 with hlt | heq | hgt
    · -- k < mk0: the pair is swapped into the min; get finds it there.
      rcases mx with _ | ⟨xk, xv⟩
      · rcases hcl : lookupA cls (high32 mk0 cs) with _ | c <;>
          · simp [hlt, hlt.ne, hlt.ne', lookupA_map_lift, hcl, freshSingleton]
            rw [getT_unfold]
            simp
      · rcases Nat.lt_trichotomy mk0 xk with h2 | h2 | h2
        · rcases hcl : lookupA cls (high32 mk0 cs) with _ | c <;>
            · simp [hlt, hlt.ne, hlt.ne', h2, h2.ne, h2.ne', Nat.lt_asymm h2,
                lookupA_map_lift, hcl, freshSingleton]
              rw [getT_unfold]
              simp
        · subst h2
          simp [hlt, hlt.ne, hlt.ne']
          rw [getT_unfold]
          simp
        · by_cases hxk : xk = k
          · subst hxk
            simp [hlt, hlt.ne, hlt.ne', h2, h2.ne, h2.ne', Nat.lt_asymm h2]
            rw [getT_unfold]
            simp
          · rcases hcl : lookupA cls (high32 xk cs) with _ | c <;>
              · simp [hlt, hlt.ne, hlt.ne', h2, h2.ne, h2.ne', Nat.lt_asymm h2,
                  hxk, lookupA_map_lift, hcl, freshSingleton]
                rw [getT_unfold]
                simp
    · -- k = mk0: the min value is replaced; get finds it at the min.
      subst heq
      rcases mx with _ | ⟨xk, xv⟩
      · simp
        rw [getT_unfold]
        simp
      · rcases Nat.lt_trichotomy k xk with h2 | h2 | h2
        · simp [h2, h2.ne, h2.ne', Nat.lt_asymm h2]
          rw [getT_unfold]
          simp
        · subst h2
          simp
          rw [getT_unfold]
          simp
        · simp [h2, h2.ne, h2.ne', Nat.lt_asymm h2]
          rw [getT_unfold]
          simp
    · -- mk0 < k: the pair keeps going past the min.
      have hnlt : ¬ k < mk0 := Nat.lt_asymm hgt
      rcases mx with _ | ⟨xk, xv⟩
      · -- no max: push into the cluster.
        rcases hcl : lookupA cls (high32 k cs) with _ | c
        · simp [hgt, hgt.ne, hgt.ne', hnlt, lookupA_map_lift, hcl, freshSingleton]
          rw [getT_unfold]
          simp [hgt.ne', hnlt, lookupA_updateA_self]
          rw [getT_unfold]
          simp
        · have hih := insert_get_roundtrip m c (low32 k cs) v
          simp [hgt, hgt.ne, hgt.ne', hnlt, lookupA_map_lift, hcl]
          rw [getT_unfold]
          simp [hgt.ne', hnlt, lookupA_updateA_self, hih]
      · rcases Nat.lt_trichotomy k xk with h2 | h2 | h2
        · -- below the max: push into the cluster.
          rcases hcl : lookupA cls (high32 k cs) with _ | c
          · simp [hgt, hgt.ne, hgt.ne', hnlt, h2, h2.ne, h2.ne', Nat.lt_asymm h2,
              lookupA_map_lift, hcl, freshSingleton]
            rw [getT_unfold]
            simp [hgt.ne', hnlt, h2, h2.ne, Nat.lt_asymm h2, lookupA_updateA_self]
            rw [getT_unfold]
            simp
          · have hih := insert_get_roundtrip m c (low32 k cs) v
            simp [hgt, hgt.ne, hgt.ne', hnlt, h2, h2.ne, h2.ne', Nat.lt_asymm h2,
              lookupA_map_lift, hcl]
            rw [getT_unfold]
            simp [hgt.ne', hnlt, h2, h2.ne, Nat.lt_asymm h2, lookupA_updateA_self,
              hih]
        · -- equal to the max: the max value is replaced.
          subst h2
          simp [hgt, hgt.ne, hgt.ne', hnlt]
          rw [getT_unfold]
          simp [hgt.ne', hnlt]
        · -- above the max: swapped into the max; get finds it there.
          by_cases hdup : xk = mk0
          · subst hdup
            simp [hgt, hgt.ne, hgt.ne', hnlt, h2, h2.ne, h2.ne', Nat.lt_asymm h2]
            rw [getT_unfold]
            simp [hgt.ne', hnlt]
          · rcases hcl : lookupA cls (high32 xk cs) with _ | c <;>
              · simp [hgt, hgt.ne, hgt.ne', hnlt, h2, h2.ne, h2.ne',
                  Nat.lt_asymm h2, hdup, lookupA_map_lift, hcl, freshSingleton]
                rw [getT_unfold]
                simp [hgt.ne', hnlt, h2.ne', Nat.lt_asymm h2]

/-- C6 counterexample: on the singleton map {1 ↦ 10} (a reachable state:
one insert after `new()`), `insert(0, 20)` must return absent — key 0 is not
stored (`get(0)` is absent) — yet it returns `Some(10)`: the new pair is
swapped into the min, the displaced key 1 then equals the max key, and the
code returns the max's old value (lines 142-166).  So the claim is false as
stated. -/
theorem insert_absent_key_returns_value :
    getT 4 (insertT 4 (new32 3) 1 10).1 0 = none ∧
      (insertT 4 (insertT 4 (new32 3) 1 10).1 0 20).2 = some 10 :=
  ⟨rfl, rfl⟩

/-- C6 amended: `insert(k, v2)` returns the previously associated value when
`k` is held by the min or by the max — including the singleton state where
min and max hold the same key `k` (fourth clause: both values are replaced
and the prior value is returned, from the max's copy, which in every
reachable singleton equals the min's); when the map is a singleton
`{m ↦ mv}` and `k < m`, it returns `Some(mv)` even though `k` was absent;
and in each of these cases `get(k)` returns `v2` afterwards.  (For keys
stored deeper in clusters the original claim is also compromised by the
`low`-mask defect recorded under C1/C8, so the characterisation is stated
for the extrema, which every two-or-fewer-key reachable state exercises.) -/
theorem insert_extrema_return_value (n : Nat) (t : VTree (n + 1)) (k v2 : Nat) :
    (∀ mv, mnOf (n + 1) t = some (k, mv) →
      (∀ xk xv, mxOf (n + 1) t = some (xk, xv) → xk ≠ k) →
      (insertT (n + 1) t k v2).2 = some mv ∧
        getT (n + 1) (insertT (n + 1) t k v2).1 k = some v2) ∧
    (∀ xv mk0 mv, mxOf (n + 1) t = some (k, xv) → mnOf (n + 1) t = some (mk0, mv) →
      mk0 < k →
      (insertT (n + 1) t k v2).2 = some xv ∧
        getT (n + 1) (insertT (n + 1) t k v2).1 k = some v2) ∧
    (∀ m mv, mnOf (n + 1) t = some (m, mv) → mxOf (n + 1) t = some (m, mv) →
      k < m →
      (insertT (n + 1) t k v2).2 = some mv ∧
        getT (n + 1) (insertT (n + 1) t k v2).1 k = some v2) ∧
    (∀ mv xv, mnOf (n + 1) t = some (k, mv) → mxOf (n + 1) t = some (k, xv) →
      (insertT (n + 1) t k v2).2 = some xv ∧
        getT (n + 1) (insertT (n + 1) t k v2).1 k = some v2) := by
  obtain ⟨mn, mx, sm, cls, cs⟩ := t
  refine ⟨?_, ?_, ?_, ?_⟩
  · intro mv hmn hxk
    simp only [mnOf] at hmn
    subst hmn
    rw [insertT.eq_def]
    rcases mx with _ | ⟨xk, xv⟩
    · constructor
      · simp
      · simp
        rw [getT_unfold]
        simp
    · have hne : xk ≠ k := hxk xk xv rfl
      rcases Nat.lt_trichotomy k xk with h2 | h2 | h2
      · constructor
        · simp [h2, h2.ne, h2.ne', Nat.lt_asymm h2]
        · simp [h2, h2.ne, h2.ne', Nat.lt_asymm h2]
          rw [getT_unfold]
          simp
      · exact absurd h2.symm hne
      · constructor
        · simp [h2, h2.ne, h2.ne', Nat.lt_asymm h2]
        · simp [h2, h2.ne, h2.ne', Nat.lt_asymm h2]
          rw [getT_unfold]
          simp
  · intro xv mk0 mv hmx hmn hlt
    simp only [mnOf] at hmn
    simp only [mxOf] at hmx
    subst hmn
    subst hmx
    rw [insertT.eq_def]
    constructor
    · simp [hlt, hlt.ne, hlt.ne', Nat.lt_asymm hlt]
    · simp [hlt, hlt.ne, hlt.ne', Nat.lt_asymm hlt]
      rw [getT_unfold]
      simp [hlt.ne', Nat.lt_asymm hlt]
  · intro m mv hmn hmx hk
    simp only [mnOf] at hmn
    simp only [mxOf] at hmx
    subst hmn
    subst hmx
    rw [insertT.eq_def]
    constructor
    · simp [hk, hk.ne, hk.ne']
    · simp [hk, hk.ne, hk.ne']
      rw [getT_unfold]
      simp
  · intro mv xv hmn hmx
    simp only [mnOf] at hmn
    simp only [mxOf] at hmx
    subst hmn
    subst hmx
    rw [insertT.eq_def]
    constructor
    · simp
    · simp
      rw [getT_unfold]
      simp

/-- Witness for the C6 theorem, on the singleton {1 ↦ 10} (one insert after
`new()`): inserting `(0, 20)` returns `Some(10)` and `get(0)` then yields 20
(third clause), and overwriting with `insert(1, 30)` returns `Some(10)` and
`get(1)` then yields 30 (fourth clause, the singleton min = max = k case). -/
theorem insert_extrema_return_value_witness :
    ((insertT 4 (insertT 4 (new32 3) 1 10).1 0 20).2 = some 10 ∧
        getT 4 (insertT 4 (insertT 4 (new32 3) 1 10).1 0 20).1 0 = some 20) ∧
      ((insertT 4 (insertT 4 (new32 3) 1 10).1 1 30).2 = some 10 ∧
        getT 4 (insertT 4 (insertT 4 (new32 3) 1 10).1 1 30).1 1 = some 30) :=
  ⟨(insert_extrema_return_value 3 (insertT 4 (new32 3) 1 10).1 0 20).2.2.1 1 10
      rfl rfl (by decide),
    (insert_extrema_return_value 3 (insertT 4 (new32 3) 1 10).1 1 30).2.2.2 10 10
      rfl rfl⟩

/-- C9 counterexample: the state reached from `new()` by `insert(1, 10)`
then `insert(5, 50)` holds two distinct keys, with 5 stored in `max`, yet
its cluster table is empty — so the max key is not present in any cluster,
let alone as a cluster's own max.  Freshly inserted maxima are kept, like
the min, outside the clusters (the second insert returns at lines 168-175
without pushing anything down). -/
theorem max_not_in_any_cluster :
    mnOf 4 (insertT 4 (insertT 4 (new32 3) 1 10).1 5 50).1 = some (1, 10) ∧
      mxOf 4 (insertT 4 (insertT 4 (new32 3) 1 10).1 5 50).1 = some (5, 50) ∧
      clustersCount 4 (insertT 4 (insertT 4 (new32 3) 1 10).1 5 50).1 = 0 :=
  ⟨rfl, rfl, rfl⟩

/-- C9 amended: after inserting two distinct keys into a new `u32` map, the
node holds both keys in its lazy extrema in order, and its cluster table
and summary are empty — the key stored in `max` is held outside every
cluster (max exclusion, not max inclusion, in insert-only states). -/
theorem two_inserts_no_clusters (n a va b vb : Nat) (hab : a ≠ b) :
    clustersCount (n + 1) (insertT (n + 1) (insertT (n + 1) (new32 n) a va).1 b vb).1 = 0 ∧
      hasSummary (n + 1) (insertT (n + 1) (insertT (n + 1) (new32 n) a va).1 b vb).1 = false ∧
      ((mnOf (n + 1) (insertT (n + 1) (insertT (n + 1) (new32 n) a va).1 b vb).1 = some (a, va) ∧
          mxOf (n + 1) (insertT (n + 1) (insertT (n + 1) (new32 n) a va).1 b vb).1 = some (b, vb) ∧
          a < b) ∨
        (mnOf (n + 1) (insertT (n + 1) (insertT (n + 1) (new32 n) a va).1 b vb).1 = some (b, vb) ∧
          mxOf (n + 1) (insertT (n + 1) (insertT (n + 1) (new32 n) a va).1 b vb).1 = some (a, va) ∧
          b < a)) := by
  have h1 : (insertT (n + 1) (new32 n) a va).1
      = (some (a, va), some (a, va), none, [], vebClusterSize 32) := rfl
  rw [h1, insertT.eq_def]
  rcases Nat.lt_trichotomy b a with h2 | h2 | h2
  · simp [h2, h2.ne, h2.ne', Nat.lt_asymm h2, clustersCount, hasSummary, mnOf, mxOf]
  · exact absurd h2.symm hab
  · simp [h2, h2.ne, h2.ne', Nat.lt_asymm h2, clustersCount, hasSummary, mnOf, mxOf]

/-- Witness for the C9 theorem at the keys 1 and 5 with values 10 and 50. -/
theorem two_inserts_no_clusters_witness :
    clustersCount 4 (insertT 4 (insertT 4 (new32 3) 1 10).1 5 50).1 = 0 ∧
      hasSummary 4 (insertT 4 (insertT 4 (new32 3) 1 10).1 5 50).1 = false ∧
      ((mnOf 4 (insertT 4 (insertT 4 (new32 3) 1 10).1 5 50).1 = some (1, 10) ∧
          mxOf 4 (insertT 4 (insertT 4 (new32 3) 1 10).1 5 50).1 = some (5, 50) ∧
          1 < 5) ∨
        (mnOf 4 (insertT 4 (insertT 4 (new32 3) 1 10).1 5 50).1 = some (5, 50) ∧
          mxOf 4 (insertT 4 (insertT 4 (new32 3) 1 10).1 5 50).1 = some (1, 10) ∧
          5 < 1)) :=
  two_inserts_no_clusters 3 1 10 5 50 (by decide)
